import Mathlib

/-!
Verification of the commit-history generator (src/generator.py).

The script is embedded shallowly:

* a `datetime` instant is an integer number of seconds (`Int`);
  `timedelta(days = d, seconds = s)` is the integer `d * 86400 + s`;
* the working directory is an association list `FS` from file names to file
  contents, read afresh by `get_existing_files` before every operation
  (the `./` prefix that `os.walk` puts on the paths and the `.git` filter
  are immaterial to the claims and are not modelled);
* each call to the `random` module is a parameter: `random.random()` is a
  rational in `[0,1)`, `random.randint(a, b)` a natural number in `[a, b]`
  (both ends included, as in Python), `random.choice(l)` an index into `l`;
* `datetime.now()` rendered into an f-string is an opaque string parameter;
* fallible filesystem operations return `Except FsError`; Python's
  `open(f, "a")` creates a missing file instead of failing, and is
  modelled accordingly;
* the `git` subprocess calls of `create_commit` are recorded in a
  `GitInvocation` value; the console output of `main` is a `List String`
  of printed lines.
-/

namespace CommitGen

/-- `NUM_COMMITS` from generator.py line 12. -/
def NUM_COMMITS : Nat := 5

/-- `generate_random_date` (generator.py lines 51-57): `now - 365 days`
plus `timedelta(days = random_days, seconds = random_seconds)`, where the
draws are `random.randint(0, 365)` and `random.randint(0, 86400)`.
Times are in seconds. -/
def generate_random_date (now : Int) (random_days random_seconds : Nat) : Int :=
  (now - 365 * 86400) + ((random_days : Int) * 86400 + (random_seconds : Int))

/-- The working directory: an association list from file name to content. -/
abbrev FS := List (String × String)

/-- `get_existing_files` (lines 70-78): the list of file names present. -/
def get_existing_files (fs : FS) : List String := fs.map Prod.fst

/-- Reading a file's content, `none` when the file does not exist. -/
def fsLookup (fs : FS) (f : String) : Option String :=
  (fs.find? fun p => p.1 = f).map Prod.snd

/-- Writing a file (mode `"w"`/after `"a"`): replaces the content when the
name exists, creates the file otherwise. -/
def fsWrite (fs : FS) (f c : String) : FS :=
  (fs.filter fun p => p.1 ≠ f) ++ [(f, c)]

inductive FsError
  | FileNotFound
deriving DecidableEq, Repr

inductive Operation
  | create
  | modify
  | delete
deriving DecidableEq, Repr

/-- `create_file` (lines 81-90): writes
`file_<randint(1000,9999)>.txt` with a two-line content and returns the
name.  `cNow` is the rendered `datetime.now()`, `cInt` the
`random.randint(1, 1000000)` payload.  Mode `"w"` truncates, so an
existing file of the same name is overwritten. -/
def create_file (fs : FS) (r4 : Nat) (cNow : String) (cInt : Nat) : FS × String :=
  let filename := "file_" ++ Nat.repr r4 ++ ".txt"
  let content := "Content generated at " ++ cNow ++ "\n" ++ ("Random data: " ++ Nat.repr cInt ++ "\n")
  (fsWrite fs filename content, filename)

/-- The text `modify_file` appends: `"\nModified at {now}\n"` followed by
`"Additional data: {randint(1,1000000)}\n"` (lines 96-97). -/
def modifyAppendText (mNow : String) (mInt : Nat) : String :=
  "\nModified at " ++ mNow ++ "\n" ++ ("Additional data: " ++ Nat.repr mInt ++ "\n")

/-- `modify_file` (lines 93-99): `open(filename, "a")` appends to the file;
in Python append mode creates the file when it is missing, so the
operation never fails. -/
def modify_file (fs : FS) (filename : String) (mNow : String) (mInt : Nat) :
    Except FsError FS :=
  Except.ok (fsWrite fs filename ((fsLookup fs filename).getD "" ++ modifyAppendText mNow mInt))

/-- `delete_file` (lines 102-105): `os.remove` fails with `FileNotFoundError`
when the file does not exist. -/
def delete_file (fs : FS) (filename : String) : Except FsError FS :=
  if filename ∈ get_existing_files fs then
    Except.ok (fs.filter fun p => p.1 ≠ filename)
  else
    Except.error FsError.FileNotFound

/-- `perform_random_operation` (lines 108-138).  `rand` is the
`random.random()` draw, `choice` the index drawn by `random.choice`,
`r4`/`cNow`/`cInt` the draws used by `create_file`, `mNow`/`mInt` those
used by `modify_file`. -/
def perform_random_operation (fs : FS) (rand : ℚ) (r4 : Nat) (cNow : String) (cInt : Nat)
    (mNow : String) (mInt : Nat) (choice : Nat) :
    Except FsError (FS × String × Operation) :=
  let existing_files := get_existing_files fs
  if existing_files = [] then
    let r := create_file fs r4 cNow cInt
    Except.ok (r.1, r.2, Operation.create)
  else if rand < (0.4 : ℚ) then
    let r := create_file fs r4 cNow cInt
    Except.ok (r.1, r.2, Operation.create)
  else if rand < (0.8 : ℚ) then
    let filename := existing_files.getD choice ""
    (modify_file fs filename mNow mInt).map fun fs2 => (fs2, filename, Operation.modify)
  else if 5 < existing_files.length then
    let filename := existing_files.getD choice ""
    (delete_file fs filename).map fun fs2 => (fs2, filename, Operation.delete)
  else
    let filename := existing_files.getD choice ""
    (modify_file fs filename mNow mInt).map fun fs2 => (fs2, filename, Operation.modify)

/-- The operation kind of a `perform_random_operation` outcome. -/
def opOf (r : Except FsError (FS × String × Operation)) : Option Operation :=
  r.toOption.map fun x => x.2.2

/-- The returned file name of a `perform_random_operation` outcome. -/
def fileOf (r : Except FsError (FS × String × Operation)) : Option String :=
  r.toOption.map fun x => x.2.1

/-- A broken-down `datetime` value, as consumed by `strftime`. -/
structure PyDateTime where
  year : Nat
  month : Nat
  day : Nat
  hour : Nat
  minute : Nat
  second : Nat
deriving DecidableEq, Repr

/-- Zero-padding of a decimal rendering to width `w`, as the `strftime`
format directives `%Y`, `%m`, `%d`, `%H`, `%M`, `%S` do. -/
def zeroPad (w : Nat) (n : Nat) : String :=
  String.mk (List.replicate (w - (Nat.repr n).length) '0' ++ (Nat.repr n).data)

/-- `commit_date.strftime("%Y-%m-%d %H:%M:%S")` (line 155). -/
def strftime_ymd_hms (d : PyDateTime) : String :=
  zeroPad 4 d.year ++ "-" ++ zeroPad 2 d.month ++ "-" ++ zeroPad 2 d.day ++ " " ++
    zeroPad 2 d.hour ++ ":" ++ zeroPad 2 d.minute ++ ":" ++ zeroPad 2 d.second

/-- The staging subprocess call issued by `create_commit`:
`git rm <path>` or `git add <path>`. -/
inductive StageCmd
  | gitRm (path : String)
  | gitAdd (path : String)
deriving DecidableEq, Repr

/-- The observable effect of `create_commit` on git: the staging call and
the `git commit` call with its message and the two date overrides
`GIT_AUTHOR_DATE` / `GIT_COMMITTER_DATE`. -/
structure GitInvocation where
  stage : StageCmd
  message : String
  authorDate : String
  committerDate : String
deriving DecidableEq, Repr

/-- `create_commit` (lines 141-168): performs the random operation, then
stages with `git rm` for a delete and `git add` otherwise, and commits
with both date environment variables set to
`commit_date.strftime("%Y-%m-%d %H:%M:%S")`.  `message` stands for the
`generate_commit_message()` draw. -/
def create_commit (commit_date : PyDateTime) (fs : FS) (rand : ℚ) (r4 : Nat)
    (cNow : String) (cInt : Nat) (mNow : String) (mInt : Nat) (choice : Nat)
    (message : String) :
    Except FsError (GitInvocation × FS × String × Operation) :=
  (perform_random_operation fs rand r4 cNow cInt mNow mInt choice).map fun r =>
    let stage := if r.2.2 = Operation.delete then StageCmd.gitRm r.2.1 else StageCmd.gitAdd r.2.1
    let date_str := strftime_ymd_hms commit_date
    ({ stage := stage, message := message, authorDate := date_str, committerDate := date_str },
      r.1, r.2.1, r.2.2)

/-- The outcome of one iteration of the loop in `main`: either the
`create_commit` call returned, or it raised an exception rendered as the
string `e`. -/
abbrev IterResult := Except String Unit

/-- The line printed every 50 iterations (line 186). -/
def progressLine (i : Nat) : String :=
  "Progress: " ++ Nat.repr i ++ "/" ++ Nat.repr NUM_COMMITS ++ " commits created"

/-- The line printed when an iteration raises (line 188). -/
def errorLine (i : Nat) (e : String) : String :=
  "Error creating commit " ++ Nat.repr i ++ ": " ++ e

/-- The lines printed by the `for i, date in enumerate(dates, 1)` loop of
`main` (lines 182-189), starting at index `i`: an `except` clause catches
any exception of an iteration, prints `errorLine` and continues. -/
def commitLoopLines : Nat → List IterResult → List String
  | _, [] => []
  | i, Except.ok _ :: rest =>
    (if i % 50 = 0 then [progressLine i] else []) ++ commitLoopLines (i + 1) rest
  | i, Except.error e :: rest => errorLine i e :: commitLoopLines (i + 1) rest

/-- The banner printed before the loop (lines 173-180). -/
def headerLines : List String :=
  ["Git Commit Generator", String.mk (List.replicate 50 '='),
    "\nGenerating " ++ Nat.repr NUM_COMMITS ++ " commits..."]

/-- The completion summary printed after the loop (lines 191-193);
`cwd` is `os.path.abspath(".")`. -/
def summaryLines (cwd : String) : List String :=
  ["\n✓ Successfully generated " ++ Nat.repr NUM_COMMITS ++ " commits!",
    "Repository location: " ++ cwd,
    "\nYou can view the commits with: git log --oneline"]

/-- Everything `main` prints (lines 171-193), as a function of the
outcomes of the `NUM_COMMITS` iterations. -/
def mainLines (cwd : String) (results : List IterResult) : List String :=
  headerLines ++ commitLoopLines 1 results ++ summaryLines cwd

/-- The timestamp list built in `main` (lines 177-178): one
`generate_random_date()` per draw pair, then `dates.sort()`. -/
def mainDates (now : Int) (draws : List (Nat × Nat)) : List Int :=
  (draws.map fun d => generate_random_date now d.1 d.2).mergeSort fun a b => decide (a ≤ b)

/-- The number of newline characters in a character list. -/
def countNl (l : List Char) : Nat := l.count '\n'

/-- The number of lines of a character list, with Python `splitlines`
semantics: one line per newline character, plus a final unterminated line
when the text does not end in a newline. -/
def lineCountL (l : List Char) : Nat :=
  if l = [] then 0 else countNl l + (if l.getLast? = some '\n' then 0 else 1)

/-- The number of lines of a file content. -/
def lineCount (s : String) : Nat := lineCountL s.data

/-! ### Helper lemmas -/

theorem digitChar_ne_newline (m : Nat) : Nat.digitChar m ≠ '\n' := by
  intro h
  rcases Nat.lt_or_ge m 16 with hlt | hge
  · interval_cases m <;> exact absurd h (by decide)
  · delta Nat.digitChar at h
    rw [if_neg (by omega : ¬ m = 0), if_neg (by omega : ¬ m = 1), if_neg (by omega : ¬ m = 2),
      if_neg (by omega : ¬ m = 3), if_neg (by omega : ¬ m = 4), if_neg (by omega : ¬ m = 5),
      if_neg (by omega : ¬ m = 6), if_neg (by omega : ¬ m = 7), if_neg (by omega : ¬ m = 8),
      if_neg (by omega : ¬ m = 9), if_neg (by omega : ¬ m = 10), if_neg (by omega : ¬ m = 11),
      if_neg (by omega : ¬ m = 12), if_neg (by omega : ¬ m = 13), if_neg (by omega : ¬ m = 14),
      if_neg (by omega : ¬ m = 15)] at h
    exact absurd h (by decide)

theorem mem_toDigitsCore (b : Nat) (fuel : Nat) :
    ∀ (n : Nat) (ds : List Char) (c : Char), c ∈ Nat.toDigitsCore b fuel n ds →
      c ∈ ds ∨ ∃ m, c = Nat.digitChar m := by
  induction fuel with
  | zero => intro n ds c hc; exact Or.inl hc
  | succ fuel ih =>
    intro n ds c hc
    rw [Nat.toDigitsCore] at hc
    by_cases h : n / b = 0
    · rw [if_pos h] at hc
      rcases List.mem_cons.mp hc with h' | h'
      · exact Or.inr ⟨n % b, h'⟩
      · exact Or.inl h'
    · rw [if_neg h] at hc
      rcases ih _ _ _ hc with h' | h'
      · rcases List.mem_cons.mp h' with h'' | h''
        · exact Or.inr ⟨n % b, h''⟩
        · exact Or.inl h''
      · exact Or.inr h'

/-- The decimal rendering of a natural number contains no newline. -/
theorem newline_not_mem_repr (n : Nat) : '\n' ∉ (Nat.repr n).data := by
  intro h
  have h' : '\n' ∈ Nat.toDigitsCore 10 (n + 1) n [] := h
  rcases mem_toDigitsCore 10 (n + 1) n [] '\n' h' with h'' | ⟨m, hm⟩
  · simp at h''
  · exact digitChar_ne_newline m hm.symm

/-- Reading back a file just written returns the written content. -/
theorem fsLookup_fsWrite_self (fs : FS) (f c : String) :
    fsLookup (fsWrite fs f c) f = some c := by
  have h1 : (fs.filter fun p => p.1 ≠ f).find? (fun p => p.1 = f) = none := by
    rw [List.find?_eq_none]
    intro x hx
    have := (List.mem_filter.mp hx).2
    simpa using this
  simp [fsLookup, fsWrite, List.find?_append, h1, List.find?]

/-- A file that is not listed does not resolve. -/
theorem fsLookup_eq_none_of_not_mem (fs : FS) (f : String)
    (h : f ∉ get_existing_files fs) : fsLookup fs f = none := by
  rw [fsLookup, Option.map_eq_none', List.find?_eq_none]
  intro x hx
  simp only [decide_eq_true_eq]
  intro hxf
  exact h (hxf ▸ List.mem_map_of_mem Prod.fst hx)

/-- Appending a newline-terminated chunk adds its newline count and makes
the final line terminated. -/
theorem lineCountL_append_nl (l m : List Char) (hm : m.getLast? = some '\n') :
    lineCountL (l ++ m) = countNl l + countNl m := by
  have hm0 : m ≠ [] := by
    intro h
    rw [h] at hm
    simp at hm
  have hne : l ++ m ≠ [] := by simp [hm0]
  rw [lineCountL, if_neg hne, List.getLast?_append, hm]
  simp [countNl]

/-- Appending to a list keeps the final element of the appended part. -/
theorem getLast?_append_right (l m : List Char) (c : Char) (h : m.getLast? = some c) :
    (l ++ m).getLast? = some c := by
  rw [List.getLast?_append, h]
  rfl

/-- The appended text of `modify_file` contains three newlines when the
rendered timestamp contains none. -/
theorem countNl_modifyAppendText (mNow : String) (mInt : Nat) (hn : '\n' ∉ mNow.data) :
    countNl (modifyAppendText mNow mInt).data = 3 := by
  have h1 : countNl mNow.data = 0 := List.count_eq_zero_of_not_mem hn
  have h2 : countNl (Nat.repr mInt).data = 0 :=
    List.count_eq_zero_of_not_mem (newline_not_mem_repr mInt)
  simp only [modifyAppendText, String.data_append, countNl, List.count_append] at *
  rw [h1, h2]
  decide

/-- The appended text of `modify_file` ends in a newline. -/
theorem getLast_modifyAppendText (mNow : String) (mInt : Nat) :
    (modifyAppendText mNow mInt).data.getLast? = some '\n' := by
  rw [modifyAppendText]
  simp only [String.data_append]
  apply getLast?_append_right
  apply getLast?_append_right
  decide

/-- The content written by `create_file` contains exactly two newlines when
the rendered timestamp contains none. -/
theorem countNl_createContent (cNow : String) (cInt : Nat) (hn : '\n' ∉ cNow.data) :
    countNl ("Content generated at " ++ cNow ++ "\n" ++
      ("Random data: " ++ Nat.repr cInt ++ "\n")).data = 2 := by
  have hr : countNl cNow.data = 0 := List.count_eq_zero_of_not_mem hn
  have h2 : countNl (Nat.repr cInt).data = 0 :=
    List.count_eq_zero_of_not_mem (newline_not_mem_repr cInt)
  simp only [String.data_append, countNl, List.count_append] at *
  rw [hr, h2]
  decide

/-- The loop output over a split iteration list is the output of the first
part followed by the output of the second part at the shifted index. -/
theorem commitLoopLines_append (l1 l2 : List IterResult) :
    ∀ i, commitLoopLines i (l1 ++ l2) =
      commitLoopLines i l1 ++ commitLoopLines (i + l1.length) l2 := by
  induction l1 with
  | nil => intro i; simp [commitLoopLines]
  | cons r t ih =>
    intro i
    cases r with
    | ok u =>
      show (if i % 50 = 0 then [progressLine i] else []) ++ commitLoopLines (i + 1) (t ++ l2) =
        commitLoopLines i (Except.ok u :: t) ++
          commitLoopLines (i + (Except.ok u :: t).length) l2
      rw [ih (i + 1), List.length_cons,
        show i + (t.length + 1) = i + 1 + t.length from by omega, ← List.append_assoc]
      rfl
    | error err =>
      show errorLine i err :: commitLoopLines (i + 1) (t ++ l2) =
        commitLoopLines i (Except.error err :: t) ++
          commitLoopLines (i + (Except.error err :: t).length) l2
      rw [ih (i + 1), List.length_cons,
        show i + (t.length + 1) = i + 1 + t.length from by omega]
      rfl

/-! ### The claims -/

/-- Claim C1: the claim states that every timestamp returned by
generate_random_date satisfies now - 365d ≤ t ≤ now.  The code draws
randint(0, 365) days and randint(0, 86400) seconds, both bounds included,
so the legal draw (365, 86400) lands a full day after now: with now = 0
the function returns +86400 seconds, strictly after now.  This also
contradicts the function's own docstring, which promises a date within
the last year. -/
theorem claim_C1 :
    (365 ≤ 365 ∧ 86400 ≤ 86400) ∧
    generate_random_date 0 365 86400 = 0 + 86400 ∧
    (0 : Int) < generate_random_date 0 365 86400 :=
  ⟨⟨le_refl 365, le_refl 86400⟩, by decide, by decide⟩

/-- Claim C2: perform_random_operation evaluates its policy in order —
an empty file list forces create; otherwise a draw r < 0.4 yields create,
0.4 ≤ r < 0.8 yields modify of the file at the drawn index, and for
r ≥ 0.8 a delete of the file at the drawn index when more than 5 files
exist, else a modify of that file as fallback. -/
theorem claim_C2 (fs : FS) (rand : ℚ) (r4 : Nat) (cNow : String) (cInt : Nat)
    (mNow : String) (mInt : Nat) (choice : Nat)
    (hc : choice < (get_existing_files fs).length) :
    (get_existing_files fs = [] →
      opOf (perform_random_operation fs rand r4 cNow cInt mNow mInt choice) =
        some Operation.create ∧
      fileOf (perform_random_operation fs rand r4 cNow cInt mNow mInt choice) =
        some (create_file fs r4 cNow cInt).2) ∧
    (get_existing_files fs ≠ [] → rand < (0.4 : ℚ) →
      opOf (perform_random_operation fs rand r4 cNow cInt mNow mInt choice) =
        some Operation.create ∧
      fileOf (perform_random_operation fs rand r4 cNow cInt mNow mInt choice) =
        some (create_file fs r4 cNow cInt).2) ∧
    (get_existing_files fs ≠ [] → (0.4 : ℚ) ≤ rand → rand < (0.8 : ℚ) →
      opOf (perform_random_operation fs rand r4 cNow cInt mNow mInt choice) =
        some Operation.modify ∧
      fileOf (perform_random_operation fs rand r4 cNow cInt mNow mInt choice) =
        some ((get_existing_files fs).getD choice "")) ∧
    (get_existing_files fs ≠ [] → (0.8 : ℚ) ≤ rand → 5 < (get_existing_files fs).length →
      opOf (perform_random_operation fs rand r4 cNow cInt mNow mInt choice) =
        some Operation.delete ∧
      fileOf (perform_random_operation fs rand r4 cNow cInt mNow mInt choice) =
        some ((get_existing_files fs).getD choice "")) ∧
    (get_existing_files fs ≠ [] → (0.8 : ℚ) ≤ rand → (get_existing_files fs).length ≤ 5 →
      opOf (perform_random_operation fs rand r4 cNow cInt mNow mInt choice) =
        some Operation.modify ∧
      fileOf (perform_random_operation fs rand r4 cNow cInt mNow mInt choice) =
        some ((get_existing_files fs).getD choice "")) := by
  have hmem : (get_existing_files fs)[choice]?.getD "" ∈ get_existing_files fs := by
    rw [List.getElem?_eq_getElem hc]
    simp
  refine ⟨?_, ?_, ?_, ?_, ?_⟩
  · intro h0
    simp [perform_random_operation, h0, opOf, fileOf, Except.toOption]
  · intro h0 h1
    simp [perform_random_operation, h0, h1, opOf, fileOf, Except.toOption]
  · intro h0 h1 h2
    simp [perform_random_operation, h0, not_lt.mpr h1, h2, opOf, fileOf, modify_file,
      Except.map, Except.toOption]
  · intro h0 h1 h2
    have h04 : ¬ rand < (0.4 : ℚ) := not_lt.mpr (le_trans (by norm_num) h1)
    simp [perform_random_operation, h0, h04, not_lt.mpr h1, h2, delete_file, hmem,
      opOf, fileOf, Except.map, Except.toOption]
  · intro h0 h1 h2
    have h04 : ¬ rand < (0.4 : ℚ) := not_lt.mpr (le_trans (by norm_num) h1)
    have h3 : ¬ (5 < (get_existing_files fs).length) := by omega
    simp [perform_random_operation, h0, h04, not_lt.mpr h1, h3, opOf, fileOf, modify_file,
      Except.map, Except.toOption]

/-- Claim C2, witness: the policy theorem instantiated at a one-file
directory and the draw index 0. -/
theorem claim_C2_witness :
    0 < (get_existing_files [("a.txt", "x")]).length ∧
    ((get_existing_files [("a.txt", "x")] = [] →
      opOf (perform_random_operation [("a.txt", "x")] 0 1234 "T" 7 "U" 8 0) =
        some Operation.create ∧
      fileOf (perform_random_operation [("a.txt", "x")] 0 1234 "T" 7 "U" 8 0) =
        some (create_file [("a.txt", "x")] 1234 "T" 7).2) ∧
    (get_existing_files [("a.txt", "x")] ≠ [] → (0 : ℚ) < (0.4 : ℚ) →
      opOf (perform_random_operation [("a.txt", "x")] 0 1234 "T" 7 "U" 8 0) =
        some Operation.create ∧
      fileOf (perform_random_operation [("a.txt", "x")] 0 1234 "T" 7 "U" 8 0) =
        some (create_file [("a.txt", "x")] 1234 "T" 7).2) ∧
    (get_existing_files [("a.txt", "x")] ≠ [] → (0.4 : ℚ) ≤ (0 : ℚ) → (0 : ℚ) < (0.8 : ℚ) →
      opOf (perform_random_operation [("a.txt", "x")] 0 1234 "T" 7 "U" 8 0) =
        some Operation.modify ∧
      fileOf (perform_random_operation [("a.txt", "x")] 0 1234 "T" 7 "U" 8 0) =
        some ((get_existing_files [("a.txt", "x")]).getD 0 "")) ∧
    (get_existing_files [("a.txt", "x")] ≠ [] → (0.8 : ℚ) ≤ (0 : ℚ) →
        5 < (get_existing_files [("a.txt", "x")]).length →
      opOf (perform_random_operation [("a.txt", "x")] 0 1234 "T" 7 "U" 8 0) =
        some Operation.delete ∧
      fileOf (perform_random_operation [("a.txt", "x")] 0 1234 "T" 7 "U" 8 0) =
        some ((get_existing_files [("a.txt", "x")]).getD 0 "")) ∧
    (get_existing_files [("a.txt", "x")] ≠ [] → (0.8 : ℚ) ≤ (0 : ℚ) →
        (get_existing_files [("a.txt", "x")]).length ≤ 5 →
      opOf (perform_random_operation [("a.txt", "x")] 0 1234 "T" 7 "U" 8 0) =
        some Operation.modify ∧
      fileOf (perform_random_operation [("a.txt", "x")] 0 1234 "T" 7 "U" 8 0) =
        some ((get_existing_files [("a.txt", "x")]).getD 0 ""))) :=
  ⟨by decide, claim_C2 [("a.txt", "x")] 0 1234 "T" 7 "U" 8 0 (by decide)⟩

/-- Claim C3: with at most 5 existing files, perform_random_operation never
selects delete, whatever the draws; equivalently, delete is only selected
when the file count strictly exceeds 5. -/
theorem claim_C3 (fs : FS) (rand : ℚ) (r4 : Nat) (cNow : String) (cInt : Nat)
    (mNow : String) (mInt : Nat) (choice : Nat)
    (h5 : (get_existing_files fs).length ≤ 5) :
    opOf (perform_random_operation fs rand r4 cNow cInt mNow mInt choice) ≠
      some Operation.delete := by
  by_cases h0 : get_existing_files fs = []
  · simp [perform_random_operation, h0, opOf, Except.toOption]
  · by_cases h1 : rand < (0.4 : ℚ)
    · simp [perform_random_operation, h0, h1, opOf, Except.toOption]
    · by_cases h2 : rand < (0.8 : ℚ)
      · simp [perform_random_operation, h0, h1, h2, opOf, modify_file, Except.map,
          Except.toOption]
      · have h3 : ¬ (5 < (get_existing_files fs).length) := by omega
        simp [perform_random_operation, h0, h1, h2, h3, opOf, modify_file, Except.map,
          Except.toOption]

/-- Claim C3, witness: a one-file directory never yields delete. -/
theorem claim_C3_witness :
    (get_existing_files [("a.txt", "x")]).length ≤ 5 ∧
    opOf (perform_random_operation [("a.txt", "x")] 0 1234 "T" 7 "U" 8 0) ≠
      some Operation.delete :=
  ⟨by decide, claim_C3 [("a.txt", "x")] 0 1234 "T" 7 "U" 8 0 (by decide)⟩

/-- Claim C4, counterexample: on a file whose content is the
newline-terminated "x\n", modify_file yields a content of 4 lines, not
the 1 + 2 = 3 lines the claim demands — the appended text starts with an
extra newline, which adds a blank line on top of the two data lines. -/
theorem claim_C4_counterexample :
    modify_file [("f.txt", "x\n")] "f.txt" "T" 1 =
      Except.ok [("f.txt", "x\n\nModified at T\nAdditional data: 1\n")] ∧
    ¬ (lineCount "x\n\nModified at T\nAdditional data: 1\n" = lineCount "x\n" + 2) :=
  ⟨rfl, by decide⟩

/-- Claim C4, amended: modify_file succeeds, preserves the prior content
as a prefix and appends a blank separator line plus the two data lines;
the line count grows by exactly 2 only when the prior content is nonempty
and not newline-terminated, and by exactly 3 otherwise — in particular by
3 for every file created by create_file, whose content ends in a
newline. -/
theorem claim_C4_amended (fs : FS) (f mNow : String) (mInt : Nat) (prior : String)
    (hn : '\n' ∉ mNow.data) (hp : (fsLookup fs f).getD "" = prior) :
    ∃ fs2, modify_file fs f mNow mInt = Except.ok fs2 ∧
      fsLookup fs2 f = some (prior ++ modifyAppendText mNow mInt) ∧
      prior.data <+: (prior ++ modifyAppendText mNow mInt).data ∧
      lineCount (prior ++ modifyAppendText mNow mInt) =
        lineCount prior +
          (if prior.data ≠ [] ∧ prior.data.getLast? ≠ some '\n' then 2 else 3) := by
  refine ⟨fsWrite fs f (prior ++ modifyAppendText mNow mInt), ?_, ?_, ?_, ?_⟩
  · rw [modify_file, hp]
  · exact fsLookup_fsWrite_self fs f _
  · exact ⟨(modifyAppendText mNow mInt).data, by simp⟩
  · have hcnt := countNl_modifyAppendText mNow mInt hn
    have hlast := getLast_modifyAppendText mNow mInt
    rw [lineCount, lineCount, String.data_append, lineCountL_append_nl _ _ hlast, hcnt]
    rw [lineCountL]
    by_cases h0 : prior.data = []
    · rw [if_pos h0, if_neg (by simp [h0]), h0]
      decide
    · rw [if_neg h0]
      by_cases h1 : prior.data.getLast? = some '\n'
      · rw [if_pos h1, if_neg (by simp [h1])]
      · rw [if_neg h1, if_pos ⟨h0, h1⟩]

/-- Claim C4 amended, witness: the amended statement instantiated at a
newline-terminated one-line file, where the count grows by 3. -/
theorem claim_C4_amended_witness :
    ('\n' ∉ "T".data) ∧ ((fsLookup [("f.txt", "x\n")] "f.txt").getD "" = "x\n") ∧
    (∃ fs2, modify_file [("f.txt", "x\n")] "f.txt" "T" 1 = Except.ok fs2 ∧
      fsLookup fs2 "f.txt" = some ("x\n" ++ modifyAppendText "T" 1) ∧
      "x\n".data <+: ("x\n" ++ modifyAppendText "T" 1).data ∧
      lineCount ("x\n" ++ modifyAppendText "T" 1) =
        lineCount "x\n" +
          (if "x\n".data ≠ [] ∧ "x\n".data.getLast? ≠ some '\n' then 2 else 3)) :=
  ⟨by decide, by decide,
    claim_C4_amended [("f.txt", "x\n")] "f.txt" "T" 1 "x\n" (by decide) (by decide)⟩

/-- Claim C5, counterexample: modify_file on a missing file does not fail
with FileNotFound — Python's append mode creates the file, so the call
succeeds and writes the appended text into a fresh file. -/
theorem claim_C5_counterexample :
    modify_file [] "ghost.txt" "T" 1 =
      Except.ok [("ghost.txt", "\nModified at T\nAdditional data: 1\n")] ∧
    modify_file [] "ghost.txt" "T" 1 ≠ Except.error FsError.FileNotFound :=
  ⟨rfl, by simp [modify_file]⟩

/-- Claim C5, amended: when the target file does not exist, delete_file
fails with FileNotFound, returning the error to its caller unrecovered,
while modify_file succeeds — append mode creates the file containing
exactly the appended text. -/
theorem claim_C5_amended (fs : FS) (f mNow : String) (mInt : Nat)
    (h : f ∉ get_existing_files fs) :
    delete_file fs f = Except.error FsError.FileNotFound ∧
    modify_file fs f mNow mInt = Except.ok (fsWrite fs f (modifyAppendText mNow mInt)) := by
  constructor
  · rw [delete_file, if_neg h]
  · rw [modify_file, fsLookup_eq_none_of_not_mem fs f h]
    rw [Option.getD_none, String.empty_append]

/-- Claim C5 amended, witness: the amended statement at an empty
directory. -/
theorem claim_C5_amended_witness :
    ("ghost.txt" ∉ get_existing_files []) ∧
    delete_file [] "ghost.txt" = Except.error FsError.FileNotFound ∧
    modify_file [] "ghost.txt" "T" 1 =
      Except.ok (fsWrite [] "ghost.txt" (modifyAppendText "T" 1)) :=
  ⟨by decide, claim_C5_amended [] "ghost.txt" "T" 1 (by decide)⟩

/-- Claim C6: the timestamp list built and sorted in main has the length
of the draw list and is non-decreasing; duplicates are permitted — two
identical draws survive as two equal entries. -/
theorem claim_C6 (now : Int) (draws : List (Nat × Nat)) :
    (mainDates now draws).length = draws.length ∧
    (mainDates now draws).Pairwise (fun a b => a ≤ b) ∧
    mainDates 0 [(0, 0), (0, 0)] =
      [generate_random_date 0 0 0, generate_random_date 0 0 0] := by
  refine ⟨by simp [mainDates], ?_, ?_⟩
  · have h := @List.sorted_mergeSort Int (fun a b : Int => decide (a ≤ b))
      (by intro a b c hab hbc; simp at *; omega)
      (by intro a b; simp [Int.le_total])
      (draws.map fun d => generate_random_date now d.1 d.2)
    exact h.imp (by intro a b hab; simpa using hab)
  · have hperm : (mainDates 0 [(0, 0), (0, 0)]).Perm
        (List.replicate 2 (generate_random_date 0 0 0)) := by
      have h := List.mergeSort_perm
        (([(0, 0), (0, 0)] : List (Nat × Nat)).map fun d => generate_random_date 0 d.1 d.2)
        (fun a b => decide (a ≤ b))
      simpa [mainDates, List.replicate] using h
    have h2 := List.perm_replicate.mp hperm
    simpa [List.replicate] using h2

/-- Claim C7: create_file names the file file_<r>.txt for the drawn
four-digit r, writes exactly two newline-terminated non-empty lines
(generation timestamp, random integer), returns that name, and the write
overwrites whatever content the name held before — the lookup after the
call returns the new two-line content for every prior directory state. -/
theorem claim_C7 (fs : FS) (r4 : Nat) (cNow : String) (cInt : Nat)
    (h1 : 1000 ≤ r4) (h2 : r4 ≤ 9999) (hn : '\n' ∉ cNow.data) :
    (create_file fs r4 cNow cInt).2 = "file_" ++ Nat.repr r4 ++ ".txt" ∧
    (Nat.digits 10 r4).length = 4 ∧
    fsLookup (create_file fs r4 cNow cInt).1 (create_file fs r4 cNow cInt).2 =
      some ("Content generated at " ++ cNow ++ "\n" ++
        ("Random data: " ++ Nat.repr cInt ++ "\n")) ∧
    lineCount ("Content generated at " ++ cNow ++ "\n" ++
      ("Random data: " ++ Nat.repr cInt ++ "\n")) = 2 ∧
    ∃ l1 l2 : List Char,
      ("Content generated at " ++ cNow ++ "\n" ++
        ("Random data: " ++ Nat.repr cInt ++ "\n")).data = l1 ++ '\n' :: (l2 ++ ['\n']) ∧
      '\n' ∉ l1 ∧ '\n' ∉ l2 ∧ l1 ≠ [] ∧ l2 ≠ [] := by
  refine ⟨rfl, ?_, ?_, ?_, ?_⟩
  · rw [Nat.digits_len 10 r4 (by norm_num) (by omega)]
    have hlog : Nat.log 10 r4 = 3 :=
      Nat.log_eq_of_pow_le_of_lt_pow (by norm_num; omega) (by norm_num; omega)
    omega
  · exact fsLookup_fsWrite_self fs _ _
  · have hlast : ("Random data: " ++ Nat.repr cInt ++ "\n").data.getLast? = some '\n' := by
      rw [String.data_append]
      exact getLast?_append_right _ _ '\n' (by decide)
    rw [lineCount, String.data_append, lineCountL_append_nl _ _ hlast]
    have hc := countNl_createContent cNow cInt hn
    simp only [String.data_append, countNl, List.count_append] at hc ⊢
    omega
  · refine ⟨("Content generated at " ++ cNow).data, ("Random data: " ++ Nat.repr cInt).data,
      ?_, ?_, ?_, ?_, ?_⟩
    · simp [String.data_append, List.append_assoc]
    · simp [String.data_append, hn]
    · simp [String.data_append, newline_not_mem_repr cInt]
    · simp [String.data_append]
    · simp [String.data_append]

/-- Claim C7, witness: the create_file statement at the draw 1234 into an
empty directory. -/
theorem claim_C7_witness :
    1000 ≤ 1234 ∧ 1234 ≤ 9999 ∧ '\n' ∉ "T".data ∧
    ((create_file [] 1234 "T" 7).2 = "file_" ++ Nat.repr 1234 ++ ".txt" ∧
    (Nat.digits 10 1234).length = 4 ∧
    fsLookup (create_file [] 1234 "T" 7).1 (create_file [] 1234 "T" 7).2 =
      some ("Content generated at " ++ "T" ++ "\n" ++
        ("Random data: " ++ Nat.repr 7 ++ "\n")) ∧
    lineCount ("Content generated at " ++ "T" ++ "\n" ++
      ("Random data: " ++ Nat.repr 7 ++ "\n")) = 2 ∧
    ∃ l1 l2 : List Char,
      ("Content generated at " ++ "T" ++ "\n" ++
        ("Random data: " ++ Nat.repr 7 ++ "\n")).data = l1 ++ '\n' :: (l2 ++ ['\n']) ∧
      '\n' ∉ l1 ∧ '\n' ∉ l2 ∧ l1 ≠ [] ∧ l2 ≠ []) :=
  ⟨by decide, by decide, by decide,
    claim_C7 [] 1234 "T" 7 (by decide) (by decide) (by decide)⟩

/-- Claim C8: whenever create_commit succeeds, the staging call is git rm
of the affected path exactly when the operation is delete and git add of
it otherwise, and both date overrides equal the same string, the
fabricated timestamp formatted as YYYY-MM-DD HH:MM:SS. -/
theorem claim_C8 (d : PyDateTime) (fs : FS) (rand : ℚ) (r4 : Nat) (cNow : String)
    (cInt : Nat) (mNow : String) (mInt : Nat) (choice : Nat) (message : String)
    (g : GitInvocation) (fs2 : FS) (fn : String) (op : Operation)
    (h : create_commit d fs rand r4 cNow cInt mNow mInt choice message =
      Except.ok (g, fs2, fn, op)) :
    (op = Operation.delete → g.stage = StageCmd.gitRm fn) ∧
    (op ≠ Operation.delete → g.stage = StageCmd.gitAdd fn) ∧
    g.authorDate = strftime_ymd_hms d ∧
    g.committerDate = strftime_ymd_hms d ∧
    g.message = message := by
  rw [create_commit] at h
  cases hp : perform_random_operation fs rand r4 cNow cInt mNow mInt choice with
  | error err =>
    rw [hp] at h
    simp [Except.map] at h
  | ok r =>
    rw [hp] at h
    simp only [Except.map, Except.ok.injEq, Prod.mk.injEq] at h
    obtain ⟨hg, hfs2, hfn, hop⟩ := h
    subst hg
    subst hfn
    subst hop
    exact ⟨fun hd => by simp [hd], fun hd => by simp [hd], rfl, rfl, rfl⟩

/-- Claim C8, witness: a concrete successful create-commit run (empty
directory, so the operation is create) staged with git add and stamped
2025-03-07 04:05:06 in both date fields. -/
theorem claim_C8_witness :
    ((Operation.create = Operation.delete →
      (⟨StageCmd.gitAdd "file_1234.txt", "m", "2025-03-07 04:05:06",
        "2025-03-07 04:05:06"⟩ : GitInvocation).stage = StageCmd.gitRm "file_1234.txt") ∧
    (Operation.create ≠ Operation.delete →
      (⟨StageCmd.gitAdd "file_1234.txt", "m", "2025-03-07 04:05:06",
        "2025-03-07 04:05:06"⟩ : GitInvocation).stage = StageCmd.gitAdd "file_1234.txt") ∧
    (⟨StageCmd.gitAdd "file_1234.txt", "m", "2025-03-07 04:05:06",
      "2025-03-07 04:05:06"⟩ : GitInvocation).authorDate =
        strftime_ymd_hms ⟨2025, 3, 7, 4, 5, 6⟩ ∧
    (⟨StageCmd.gitAdd "file_1234.txt", "m", "2025-03-07 04:05:06",
      "2025-03-07 04:05:06"⟩ : GitInvocation).committerDate =
        strftime_ymd_hms ⟨2025, 3, 7, 4, 5, 6⟩ ∧
    (⟨StageCmd.gitAdd "file_1234.txt", "m", "2025-03-07 04:05:06",
      "2025-03-07 04:05:06"⟩ : GitInvocation).message = "m") :=
  claim_C8 ⟨2025, 3, 7, 4, 5, 6⟩ [] 0 1234 "T" 7 "U" 8 0 "m"
    ⟨StageCmd.gitAdd "file_1234.txt", "m", "2025-03-07 04:05:06", "2025-03-07 04:05:06"⟩
    [("file_1234.txt", "Content generated at T\nRandom data: 7\n")] "file_1234.txt"
    Operation.create (by rfl)

/-- Claim C9: an exception in an iteration is caught at the iteration
boundary — the loop output around a failing iteration is exactly the
output of the earlier iterations, one error line carrying the iteration
index and the error text, and then the output of the remaining
iterations; the completion summary line is still printed. -/
theorem claim_C9 (pre post : List IterResult) (e : String) (cwd : String) :
    commitLoopLines 1 (pre ++ Except.error e :: post) =
      commitLoopLines 1 pre ++
        errorLine (pre.length + 1) e :: commitLoopLines (pre.length + 2) post ∧
    errorLine (pre.length + 1) e ∈ mainLines cwd (pre ++ Except.error e :: post) ∧
    ("\n✓ Successfully generated " ++ Nat.repr NUM_COMMITS ++ " commits!") ∈
      mainLines cwd (pre ++ Except.error e :: post) := by
  have h1 : commitLoopLines 1 (pre ++ Except.error e :: post) =
      commitLoopLines 1 pre ++
        errorLine (pre.length + 1) e :: commitLoopLines (pre.length + 2) post := by
    rw [commitLoopLines_append pre (Except.error e :: post) 1]
    simp only [commitLoopLines]
    rw [show 1 + pre.length = pre.length + 1 from by omega,
      show pre.length + 1 + 1 = pre.length + 2 from by omega]
  refine ⟨h1, ?_, ?_⟩
  · rw [mainLines, h1]
    simp
  · rw [mainLines]
    simp [summaryLines]

/-- Claim C10: the completion summary always reports the configured
NUM_COMMITS as successfully generated — for every outcome list, including
all-failing runs, the output ends in the same fixed three summary lines,
and the line claiming 5 generated commits is always printed. -/
theorem claim_C10 (cwd : String) (results : List IterResult) :
    (∃ pre, mainLines cwd results =
      pre ++ ["\n✓ Successfully generated " ++ Nat.repr NUM_COMMITS ++ " commits!",
        "Repository location: " ++ cwd,
        "\nYou can view the commits with: git log --oneline"]) ∧
    ("\n✓ Successfully generated 5 commits!") ∈ mainLines cwd results := by
  constructor
  · exact ⟨headerLines ++ commitLoopLines 1 results, by simp [mainLines, summaryLines]⟩
  · rw [mainLines,
      show ("\n✓ Successfully generated 5 commits!" : String) =
        "\n✓ Successfully generated " ++ Nat.repr NUM_COMMITS ++ " commits!" from by decide]
    simp [summaryLines]

end CommitGen
